import Mathlib

/-!
Shallow embedding of the NAUTIX ferry-booking reservation core
(`backend/app/services/holds.py`, `backend/app/services/qr.py`,
`backend/app/api/v1/endpoints.py`, `backend/app/api/v1/payments.py`,
`backend/app/models/entities.py`), together with theorems settling the
frozen claims about it.

Modelling conventions:
* `datetime.utcnow()` instants are abstract `Nat` ticks; `timedelta` of `m` minutes
  adds `m` ticks.  Each operation receives the instant at which it runs.
* the SQLAlchemy session/commit discipline is made explicit: every operation
  maps the durable store `DB` to a new durable store, and an operation that
  commits several times (as `create_booking` does, because `create_hold` and
  `consume_hold` each issue their own `db.commit()`) is modelled so that an
  exception after an inner commit leaves that inner commit durable.
* uuid generation is a fresh counter (`DB.nextId`); the randomness of
  `random.choices` is an explicit stream `rng : Nat → Nat`.
* the ES256 signature of `python-jose` is modelled symbolically: a signature
  records the signing key, the signed payload and the ECDSA nonce; it passes
  verification exactly when key and payload tags match the key of the verifier and
  the presented payload and the nonce tag matches the nonce component.  The
  per-signature ECDSA randomness is an explicit freshness counter `DB.sigCtr`.
* two defects of the source are embedded faithfully rather than idealized:
  `Booking.user_id` (`entities.py` line 128) is NOT NULL with no default and is
  never set by the `create_booking` endpoint, so the flush of the Booking
  INSERT raises `IntegrityError` on every call; and `payments.py` line 16
  binds `event` to the un-awaited `request.json()` coroutine, so the webhook
  endpoint raises `TypeError` on every delivery before its idempotency logic.
-/

namespace Nautix

/-- Abstract time instants (`datetime.utcnow()`), in ticks; one minute = one tick. -/
abbrev Time := Nat

/-! ### Python string helpers (`str.strip`, `str.title`) -/

/-- Python `str.strip()` (ASCII whitespace): drop leading and trailing
whitespace characters. -/
def pyStrip (s : String) : String :=
  String.mk (((s.data.dropWhile Char.isWhitespace).reverse.dropWhile
    Char.isWhitespace).reverse)

/-- One pass of Python `str.title()` over a character list; the boolean records
whether the previous character was cased (alphabetic). -/
def titleChars : Bool → List Char → List Char
  | _, [] => []
  | prevAlpha, c :: cs =>
    if c.isAlpha then
      (if prevAlpha then c.toLower else c.toUpper) :: titleChars true cs
    else
      c :: titleChars false cs

/-- Python `str.title()`: first letter of every alphabetic run uppercased,
the rest lowercased. -/
def pyTitle (s : String) : String := String.mk (titleChars false s.data)

/-! ### Ticket credential service (`services/qr.py`), signature modelled symbolically -/

/-- Claims handed to `sign_qr_token` in `create_booking`:
`{"booking_id": str(booking.id), "passenger": passenger.name}`. -/
structure QRClaims where
  booking_id : String
  passenger : String
deriving DecidableEq

/-- Payload actually signed: the claims plus the `iat`/`exp` timestamps that
`sign_qr_token` adds before encoding. -/
structure QRPayload where
  booking_id : String
  passenger : String
  iat : Time
  exp : Time
deriving DecidableEq

/-- Symbolic ES256 signature: `nonce` is the ECDSA per-signature randomness
(visible as signature bytes), `keyTag`/`payloadTag`/`nonceTag` stand for the
algebraic content of the signature, forgeable only with the private key. -/
structure Sig where
  nonce : Nat
  keyTag : Nat
  payloadTag : QRPayload
  nonceTag : Nat
deriving DecidableEq

/-- Signing with the private key binds key, payload and nonce. -/
def makeSig (key : Nat) (p : QRPayload) (nonce : Nat) : Sig :=
  { nonce := nonce, keyTag := key, payloadTag := p, nonceTag := nonce }

/-- Signature check with the (paired) public key. -/
def sigOk (key : Nat) (p : QRPayload) (s : Sig) : Bool :=
  decide (s.keyTag = key) && decide (s.payloadTag = p) && decide (s.nonceTag = s.nonce)

/-- A JWT: its (decoded) payload and its signature. -/
structure QRToken where
  payload : QRPayload
  sig : Sig
deriving DecidableEq

/-- The single ES256 key pair provisioned via `settings.jwt_private_key_path` /
`settings.jwt_public_key_path`. -/
def settingsKey : Nat := 0

/-- Default token lifetime in `sign_qr_token`: `expires_minutes: int = 60 * 24`. -/
def DEFAULT_TOKEN_MINUTES : Nat := 60 * 24

/-- Embedding of `sign_qr_token` (`services/qr.py` lines 14–23): copy the claims,
add `iat := now` and `exp := now + expires_minutes`, sign with the private key.
`nonce` is the ECDSA randomness drawn for this signature. -/
def sign_qr_token (key nonce : Nat) (claims : QRClaims) (now : Time)
    (expires_minutes : Nat := DEFAULT_TOKEN_MINUTES) : QRToken :=
  let p : QRPayload :=
    { booking_id := claims.booking_id, passenger := claims.passenger,
      iat := now, exp := now + expires_minutes }
  { payload := p, sig := makeSig key p nonce }

/-- Failure modes of `jwt.decode`: `JWTError` on a bad signature
(`InvalidCredential`), `ExpiredSignatureError` on an elapsed `exp`
(`ExpiredCredential`). -/
inductive VerifyError
  | invalidCredential
  | expiredCredential
deriving DecidableEq

/-- The `str(exc)` messages `scan_ticket` surfaces as the decline reason. -/
def verifyErrorMessage : VerifyError → String
  | .invalidCredential => "Signature verification failed."
  | .expiredCredential => "Signature has expired."

/-- Embedding of `verify_qr_token` (`services/qr.py` lines 26–29): `jwt.decode`
checks the signature against the public key, then the `exp` claim (expired when
`exp < now`, zero leeway), and returns the decoded payload. -/
def verify_qr_token (key : Nat) (now : Time) (t : QRToken) : Except VerifyError QRPayload :=
  if sigOk key t.payload t.sig then
    if t.payload.exp < now then .error .expiredCredential
    else .ok t.payload
  else .error .invalidCredential

/-! ### Entities (`models/entities.py`) -/

/-- Enum `BookingStatus` (`entities.py` lines 20–24). -/
inductive BookingStatus
  | pending
  | confirmed
  | cancelled
  | refunded
deriving DecidableEq

/-- The columns of `Schedule` the reservation core reads. -/
structure Schedule where
  id : String
  capacity : Nat
deriving DecidableEq

/-- The `Hold` row (`entities.py` lines 212–229). -/
structure Hold where
  id : String
  schedule_id : String
  pax_count : Nat
  expires_at : Time
  consumed : Bool
  created_at : Time
deriving DecidableEq

/-- The `Booking` row columns relevant to the core (`entities.py` lines 124–178).
`user_id` (line 128) is a NOT NULL column with no default that the
`create_booking` endpoint never sets; it is `none` on the ORM object the
endpoint constructs, and the flush of the INSERT enforces the constraint. -/
structure Booking where
  id : String
  user_id : Option String
  schedule_id : String
  status : BookingStatus
  pax_count : Nat
  vehicle_type : Option String
  booking_reference : String
  created_at : Time
deriving DecidableEq

/-- The `Ticket` row columns the core writes (`entities.py` lines 181–209). -/
structure Ticket where
  id : String
  booking_id : String
  passenger_name : String
  used : Bool
  used_at : Option Time
  qr_token : QRToken
deriving DecidableEq

/-- The `PaymentEvent` row (`entities.py` lines 232–238). -/
structure PaymentEvent where
  id : String
  type : String
  booking_id : Option String
  processed_at : Time
deriving DecidableEq

/-- The durable store, plus a uuid freshness counter and an ECDSA-randomness
freshness counter. -/
structure DB where
  schedules : List Schedule
  holds : List Hold
  bookings : List Booking
  tickets : List Ticket
  payment_events : List PaymentEvent
  nextId : Nat
  sigCtr : Nat
deriving DecidableEq

/-! ### Capacity ledger (`services/holds.py`) -/

/-- Module constant `DEFAULT_HOLD_MINUTES = 10`. -/
def DEFAULT_HOLD_MINUTES : Nat := 10

/-- Embedding of `create_hold` (`holds.py` lines 11–17): build a `Hold` with
`expires_at` equal to `now` plus `minutes` minutes, add it and commit.  Always
succeeds; capacity is never consulted. -/
def create_hold (db : DB) (schedule_id : String) (pax_count : Nat) (now : Time)
    (minutes : Nat := DEFAULT_HOLD_MINUTES) : DB × Hold :=
  let h : Hold :=
    { id := toString db.nextId, schedule_id := schedule_id, pax_count := pax_count,
      expires_at := now + minutes, consumed := false, created_at := now }
  ({ db with holds := db.holds ++ [h], nextId := db.nextId + 1 }, h)

/-- Filter of the `consume_hold` query:
`Hold.id == hold_id AND Hold.consumed == False AND Hold.expires_at > now`. -/
def consumePred (hold_id : String) (now : Time) (h : Hold) : Bool :=
  decide (h.id = hold_id) && decide (h.consumed = false) && decide (now < h.expires_at)

/-- Embedding of `consume_hold` (`holds.py` lines 20–29): select the first hold
with the given id that is unconsumed and unexpired (`expires_at > now`); if none,
return `false` with no side effect; otherwise set `consumed := true` and commit. -/
def consume_hold (db : DB) (hold_id : String) (now : Time) : DB × Bool :=
  match db.holds.find? (consumePred hold_id now) with
  | none => (db, false)
  | some _ =>
    ({ db with holds := db.holds.map (fun h =>
        if h.id = hold_id then { h with consumed := true } else h) }, true)

/-- Embedding of `release_expired_holds` (`holds.py` lines 32–39): delete every
hold with `expires_at ≤ now` and `consumed = false`; return how many. -/
def release_expired_holds (db : DB) (now : Time) : DB × Nat :=
  let expired := db.holds.filter (fun h => decide (h.expires_at ≤ now) && decide (h.consumed = false))
  ({ db with holds := db.holds.filter (fun h =>
      !(decide (h.expires_at ≤ now) && decide (h.consumed = false))) }, expired.length)

/-! ### Booking reference generation (`entities.py` lines 148–161) -/

/-- Element `n` of `string.ascii_uppercase` drawn by `random.choices`. -/
def upperChoice (n : Nat) : Char := Char.ofNat (65 + n % 26)

/-- Element `n` of `string.digits` drawn by `random.choices`. -/
def digitChoice (n : Nat) : Char := Char.ofNat (48 + n % 10)

/-- Embedding of `Booking._generate_booking_reference`: `"NTX-"` then two
uppercase letters, three digits, two uppercase letters, drawn from the random
stream `rng`. -/
def generate_booking_reference (rng : Nat → Nat) : String :=
  "NTX-" ++ String.mk
    [upperChoice (rng 0), upperChoice (rng 1),
     digitChoice (rng 2), digitChoice (rng 3), digitChoice (rng 4),
     upperChoice (rng 5), upperChoice (rng 6)]

/-- Embedding of the `@validates(pax_count)` hook on `Booking`
(`entities.py` lines 163–169), which raises `ValueError` during construction. -/
def validate_pax_count (value : Nat) : Except String Nat :=
  if value = 0 then .error "Passenger count must be positive"
  else if value > 20 then .error "Maximum 20 passengers per booking"
  else .ok value

/-- Embedding of the `@validates(passenger_name)` hook on `Ticket`
(`entities.py` lines 199–203): raise unless the value is nonempty and at least
2 characters after strip; store `value.strip().title()`. -/
def ticket_validate_passenger_name (value : String) : Except String String :=
  if value = "" then .error "Passenger name must be at least 2 characters"
  else if (pyStrip value).length < 2 then .error "Passenger name must be at least 2 characters"
  else .ok (pyTitle (pyStrip value))

/-! ### Request schemas (`schemas/api.py`) -/

/-- A `PassengerInfo` that passed pydantic validation; `name` is the normalized
value `raw.strip().title()`. -/
structure PassengerInfo where
  name : String
deriving DecidableEq

/-- Embedding of `PassengerInfo` validation (`schemas/api.py` lines 47–55):
the Field bounds min_length 2 and max_length 100 on the raw value, then the
`validate_name` validator, which rejects a blank strip and normalizes with
`strip().title()`. -/
def pydantic_validate_name (raw : String) : Option String :=
  if 2 ≤ raw.length ∧ raw.length ≤ 100 then
    if pyStrip raw = "" then none else some (pyTitle (pyStrip raw))
  else none

/-- A `BookingCreate` that passed pydantic validation. -/
structure BookingCreate where
  schedule_id : String
  passengers : List PassengerInfo
  vehicle : Option String
deriving DecidableEq

/-- Embedding of `BookingCreate` validation (`schemas/api.py` lines 75–80):
`passengers` has min_items 1 and max_items 20, each element validated by
`PassengerInfo`. -/
def validate_booking_create (schedule_id : String) (names : List String)
    (vehicle : Option String) : Option BookingCreate :=
  if 1 ≤ names.length ∧ names.length ≤ 20 then
    (names.mapM pydantic_validate_name).map
      (fun ns => ⟨schedule_id, ns.map PassengerInfo.mk, vehicle⟩)
  else none

/-! ### Booking state machine (`api/v1/endpoints.py` `create_booking`) -/

/-- Outcomes of the `create_booking` endpoint other than `201 Created`:
`404 Schedule not found`; `409 Unable to secure seats (hold failed)` — the
`CapacityExhausted` conflict; a `ValueError` escaping an entity validator
(surfaced as a 500 by the error-handler middleware, session rolled back); an
`IntegrityError` from the `booking_reference` unique constraint at commit. -/
inductive CBError
  | notFound
  | conflict
  | validationError (msg : String)
  | integrityError
deriving DecidableEq

/-- Ticket-issuance loop of `create_booking` (`endpoints.py` lines 84–93): for
each passenger sign a token over `(booking_id, passenger.name)` and construct a
`Ticket` row (whose constructor validates the name and may raise).  `baseId`
and `sigBase` are the uuid / ECDSA-randomness freshness counters. -/
def build_tickets (bid : String) (now : Time) :
    Nat → Nat → List PassengerInfo → Except String (List Ticket)
  | _, _, [] => .ok []
  | baseId, sigBase, p :: ps =>
    match ticket_validate_passenger_name p.name with
    | .error e => .error e
    | .ok pname =>
      match build_tickets bid now (baseId + 1) (sigBase + 1) ps with
      | .error e => .error e
      | .ok rest =>
        .ok (({ id := toString baseId, booking_id := bid, passenger_name := pname,
                used := false, used_at := none,
                qr_token := sign_qr_token settingsKey sigBase ⟨bid, p.name⟩ now } : Ticket)
          :: rest)

/-- The `db.flush()` at `endpoints.py` line 82: it emits the INSERT of the
Booking row, which enforces the NOT NULL constraint on `user_id` and the
unique constraint on `booking_reference`; a violation raises `IntegrityError`
(surfaced as a 500 by the error-handler middleware). -/
def flush_booking_insert (db : DB) (b : Booking) : Except CBError Unit :=
  if b.user_id = none then .error .integrityError
  else if db.bookings.any (fun b0 => decide (b0.booking_reference = b.booking_reference)) then
    .error .integrityError
  else .ok ()

/-- Embedding of the `create_booking` endpoint (`endpoints.py` lines 64–97).
Commit boundaries follow the source: `create_hold` and `consume_hold` each
commit internally, so their effects stay durable on every later outcome.  The
Booking is constructed without `user_id` (the endpoint never sets it), so the
flush of its INSERT always raises `IntegrityError`: the ticket-issuance loop
and the final `db.commit()` that follow are unreachable in the source and are
kept here for faithfulness only. -/
def create_booking (db : DB) (payload : BookingCreate) (now : Time)
    (rng : Nat → Nat) : Except CBError String × DB :=
  match db.schedules.find? (fun s => decide (s.id = payload.schedule_id)) with
  | none => (.error .notFound, db)
  | some schedule =>
    let r1 := create_hold db schedule.id payload.passengers.length now
    let r2 := consume_hold r1.1 r1.2.id now
    if r2.2 = false then (.error .conflict, r2.1)
    else
      match validate_pax_count payload.passengers.length with
      | .error msg => (.error (.validationError msg), r2.1)
      | .ok paxCount =>
        let db2 := r2.1
        let bid := toString db2.nextId
        let booking : Booking :=
          { id := bid, user_id := none, schedule_id := schedule.id, status := .confirmed,
            pax_count := paxCount, vehicle_type := payload.vehicle,
            booking_reference := generate_booking_reference rng, created_at := now }
        match flush_booking_insert db2 booking with
        | .error e => (.error e, db2)
        | .ok _ =>
          match build_tickets bid now (db2.nextId + 1) db2.sigCtr payload.passengers with
          | .error msg => (.error (.validationError msg), db2)
          | .ok ts =>
            (.ok bid,
             { db2 with
                 bookings := db2.bookings ++ [booking],
                 tickets := db2.tickets ++ ts,
                 nextId := db2.nextId + 1 + ts.length,
                 sigCtr := db2.sigCtr + ts.length })

/-! ### Scan/redemption gate (`api/v1/endpoints.py` `scan_ticket`) -/

/-- The `ScanResponse` schema (`schemas/api.py` lines 87–93), restricted to the
fields `scan_ticket` sets. -/
structure ScanResponse where
  valid : Bool
  ticket_id : Option String := none
  booking_id : Option String := none
  reason : Option String := none
deriving DecidableEq

/-- Predicate of the ticket lookup in `scan_ticket`:
`Ticket.booking_id == booking_id AND Ticket.passenger_name == passenger_name`. -/
def ticketKeyMatch (b p : String) (t : Ticket) : Bool :=
  decide (t.booking_id = b) && decide (t.passenger_name = p)

/-- The conditional update of `scan_ticket`:
`UPDATE tickets SET used = true, used_at = now WHERE id = tid AND used = false`,
applied row-wise. -/
def markUsed (tid : String) (now : Time) (t : Ticket) : Ticket :=
  if t.id = tid ∧ t.used = false then { t with used := true, used_at := some now } else t

/-- Embedding of the `scan_ticket` endpoint (`endpoints.py` lines 113–144):
verify the token (any failure becomes `valid := false` with `str(exc)` as the
reason); look up the first ticket matching `(booking_id, passenger)` from the
verified claims; decline "Ticket not found for booking" if absent and
"Ticket already used" (with identifiers) if used; otherwise mark it used
through the conditional update `WHERE id = ticket.id AND used = false` and
commit, declining if zero rows were affected. -/
def scan_ticket (db : DB) (tok : QRToken) (now : Time) : ScanResponse × DB :=
  match verify_qr_token settingsKey now tok with
  | .error e => ({ valid := false, reason := some (verifyErrorMessage e) }, db)
  | .ok data =>
    match db.tickets.find? (ticketKeyMatch data.booking_id data.passenger) with
    | none => ({ valid := false, reason := some "Ticket not found for booking" }, db)
    | some ticket =>
      if ticket.used then
        ({ valid := false, reason := some "Ticket already used",
           ticket_id := some ticket.id, booking_id := some ticket.booking_id }, db)
      else
        let updated := (db.tickets.filter (fun t =>
            decide (t.id = ticket.id) && decide (t.used = false))).length
        let db' := { db with tickets := db.tickets.map (markUsed ticket.id now) }
        if updated = 0 then
          ({ valid := false, reason := some "Ticket already used",
             ticket_id := some ticket.id, booking_id := some ticket.booking_id }, db')
        else
          ({ valid := true,
             ticket_id := some ticket.id, booking_id := some ticket.booking_id }, db')

/-- Run a sequence of scan requests (each a token with the instant it is
presented), collecting the responses. -/
def runScans (db : DB) : List (QRToken × Time) → DB × List ScanResponse
  | [] => (db, [])
  | s :: rest =>
    let r := scan_ticket db s.1 s.2
    let rr := runScans r.2 rest
    (rr.1, r.1 :: rr.2)

/-! ### Payment webhook (`api/v1/payments.py` `stripe_webhook`) -/

/-- A parsed webhook body that contains an `"id"`: the event id, the event type
(`event.get("type", "unknown")` applied at the parse boundary), and
`data.object.metadata.booking_id` when present.  Request parsing itself is an
excluded external collaborator; an unparseable or id-less body is `none`. -/
structure WebhookEvent where
  id : String
  type : String
  booking_id : Option String
deriving DecidableEq

/-- Webhook endpoint outcomes: `{"status": "ok"}`, `400 Invalid webhook
payload`, or the 500 the error-handler middleware produces for an unhandled
exception inside the endpoint. -/
inductive WebhookResult
  | ok
  | badRequest
  | internalError
deriving DecidableEq

/-- The idempotent-apply logic of `stripe_webhook` (`payments.py` lines 20–43)
as it would run on a parsed body (`none` for a body without an `"id"`):
short-circuit with success when the event id is already recorded; otherwise
record the event, attach `booking_id` from the metadata when present, and set
the status of that booking to `confirmed` when it exists and the event type is
`payment_intent.succeeded` or `checkout.session.completed`.  This code is DEAD
in the source: line 16 binds `event` to the un-awaited `request.json()`
coroutine, so line 20 raises `TypeError` before this logic on every delivery
(see `stripe_webhook`); it is embedded here because it documents the intended
behaviour the spec describes. -/
def webhook_apply_event (db : DB) (event : Option WebhookEvent) (now : Time) :
    WebhookResult × DB :=
  match event with
  | none => (.badRequest, db)
  | some ev =>
    if db.payment_events.any (fun p => decide (p.id = ev.id)) then (.ok, db)
    else
      match ev.booking_id with
      | none =>
        (.ok, { db with payment_events := db.payment_events ++
            [{ id := ev.id, type := ev.type, booking_id := none, processed_at := now }] })
      | some bid =>
        let confirmable :=
          ev.type = "payment_intent.succeeded" ∨ ev.type = "checkout.session.completed"
        let bookings' :=
          if confirmable then
            db.bookings.map (fun b =>
              if b.id = bid then { b with status := .confirmed } else b)
          else db.bookings
        (.ok, { db with
            payment_events := db.payment_events ++
              [{ id := ev.id, type := ev.type, booking_id := some bid, processed_at := now }],
            bookings := bookings' })

/-- Embedding of the `stripe_webhook` endpoint as it actually executes
(`payments.py` lines 11–43): line 16 calls `request.json()` WITHOUT `await`,
so `event` is bound to a coroutine object (the `try` raises nothing); the test
`event is None or "id" not in event` at line 20 then raises `TypeError`
(a coroutine supports no membership test) on every delivery, before any of the
idempotency logic, and the error-handler middleware turns it into a 500.  No
row is ever read or written. -/
def stripe_webhook (db : DB) (_event : Option WebhookEvent) (_now : Time) :
    WebhookResult × DB :=
  (.internalError, db)

/-- Sum of `pax_count` over `confirmed` bookings of a schedule — the quantity
`Schedule.available_capacity` subtracts from `capacity`
(`entities.py` lines 90–97). -/
def confirmedPax (db : DB) (schedule_id : String) : Nat :=
  (db.bookings.filter (fun b =>
      decide (b.schedule_id = schedule_id) && decide (b.status = BookingStatus.confirmed))).foldl
    (fun acc b => acc + b.pax_count) 0

/-! ## General helper lemmas -/

theorem consume_hold_of_find_none (db : DB) (hold_id : String) (now : Time)
    (hfind : db.holds.find? (consumePred hold_id now) = none) :
    consume_hold db hold_id now = (db, false) := by
  unfold consume_hold
  rw [hfind]

theorem consume_hold_of_find_some (db : DB) (hold_id : String) (now : Time) (h : Hold)
    (hfind : db.holds.find? (consumePred hold_id now) = some h) :
    consume_hold db hold_id now =
      ({ db with holds := db.holds.map (fun x =>
          if x.id = hold_id then { x with consumed := true } else x) }, true) := by
  unfold consume_hold
  rw [hfind]

theorem consumePred_true_iff (hold_id : String) (now : Time) (h : Hold) :
    consumePred hold_id now h = true ↔
      h.id = hold_id ∧ h.consumed = false ∧ now < h.expires_at := by
  simp [consumePred, and_assoc]

theorem consume_hold_true_iff (db : DB) (hold_id : String) (now : Time) :
    (consume_hold db hold_id now).2 = true ↔
      ∃ h ∈ db.holds, h.id = hold_id ∧ h.consumed = false ∧ now < h.expires_at := by
  cases hfind : db.holds.find? (consumePred hold_id now) with
  | none =>
    rw [consume_hold_of_find_none db hold_id now hfind]
    rw [List.find?_eq_none] at hfind
    simp only [Bool.false_eq_true, false_iff]
    rintro ⟨h, hmem, h1, h2, h3⟩
    exact hfind h hmem ((consumePred_true_iff hold_id now h).mpr ⟨h1, h2, h3⟩)
  | some h =>
    rw [consume_hold_of_find_some db hold_id now h hfind]
    simp only [true_iff]
    exact ⟨h, List.mem_of_find?_eq_some hfind,
      (consumePred_true_iff hold_id now h).mp (List.find?_some hfind)⟩

theorem consume_hold_false_no_effect (db : DB) (hold_id : String) (now : Time)
    (h : (consume_hold db hold_id now).2 = false) :
    (consume_hold db hold_id now).1 = db := by
  cases hfind : db.holds.find? (consumePred hold_id now) with
  | none => rw [consume_hold_of_find_none db hold_id now hfind]
  | some x => rw [consume_hold_of_find_some db hold_id now x hfind] at h; simp at h

theorem consume_hold_true_holds (db : DB) (hold_id : String) (now : Time)
    (h : (consume_hold db hold_id now).2 = true) :
    (consume_hold db hold_id now).1.holds =
      db.holds.map (fun x => if x.id = hold_id then { x with consumed := true } else x) := by
  cases hfind : db.holds.find? (consumePred hold_id now) with
  | none => rw [consume_hold_of_find_none db hold_id now hfind] at h; simp at h
  | some x => rw [consume_hold_of_find_some db hold_id now x hfind]

theorem consume_hold_twice (db : DB) (hold_id : String) (now : Time)
    (h : (consume_hold db hold_id now).2 = true) (now2 : Time) :
    (consume_hold (consume_hold db hold_id now).1 hold_id now2).2 = false := by
  cases hx : (consume_hold (consume_hold db hold_id now).1 hold_id now2).2 with
  | false => rfl
  | true =>
    exfalso
    rcases (consume_hold_true_iff _ hold_id now2).mp hx with ⟨a, hmem, h1, h2, _⟩
    rw [consume_hold_true_holds db hold_id now h] at hmem
    rcases List.mem_map.mp hmem with ⟨b, _, rfl⟩
    by_cases hb : b.id = hold_id
    · simp [hb] at h1 h2
    · simp [hb] at h1 h2

theorem consume_hold_expired_fresh (db : DB) (sid : String) (pax : Nat) (now now2 : Time)
    (hle : now ≤ now2) (hfresh : ∀ h ∈ db.holds, h.id ≠ toString db.nextId) :
    (consume_hold (create_hold db sid pax now 0).1 (create_hold db sid pax now 0).2.id now2).2
      = false := by
  cases hx : (consume_hold (create_hold db sid pax now 0).1
      (create_hold db sid pax now 0).2.id now2).2 with
  | false => rfl
  | true =>
    exfalso
    rcases (consume_hold_true_iff _ _ now2).mp hx with ⟨a, hmem, h1, _, h3⟩
    simp only [create_hold] at hmem h1
    rcases List.mem_append.mp hmem with hm | hm
    · exact hfresh a hm h1
    · simp only [List.mem_singleton] at hm
      subst hm
      simp only [Nat.add_zero] at h3
      exact absurd h3 (Nat.not_lt.mpr hle)

/-- C3: `consume_hold` succeeds exactly when the hold exists, is unconsumed and
is strictly unexpired, in which case it sets `consumed := true`; otherwise it
fails with no side effect; a second call on the same id after a success fails;
and a hold created with ttl = 0 is never consumable at any later instant. -/
theorem consume_hold_contract (db : DB) (hold_id : String) (now : Time) :
    ((consume_hold db hold_id now).2 = true ↔
      ∃ h ∈ db.holds, h.id = hold_id ∧ h.consumed = false ∧ now < h.expires_at)
    ∧ ((consume_hold db hold_id now).2 = true →
        (consume_hold db hold_id now).1.holds =
          db.holds.map (fun x => if x.id = hold_id then { x with consumed := true } else x))
    ∧ ((consume_hold db hold_id now).2 = false → (consume_hold db hold_id now).1 = db)
    ∧ ((consume_hold db hold_id now).2 = true →
        ∀ now2, (consume_hold (consume_hold db hold_id now).1 hold_id now2).2 = false)
    ∧ (∀ sid pax now2, now ≤ now2 → (∀ h ∈ db.holds, h.id ≠ toString db.nextId) →
        (consume_hold (create_hold db sid pax now 0).1 (create_hold db sid pax now 0).2.id now2).2
          = false) :=
  ⟨consume_hold_true_iff db hold_id now,
   consume_hold_true_holds db hold_id now,
   consume_hold_false_no_effect db hold_id now,
   fun h now2 => consume_hold_twice db hold_id now h now2,
   fun sid pax now2 hle hfresh => consume_hold_expired_fresh db sid pax now now2 hle hfresh⟩

/-- The store used by the witnesses of the hold-contract theorems: one schedule
of capacity 2 and one live hold. -/
def dbHoldW : DB :=
  { schedules := [{ id := "s1", capacity := 2 }],
    holds := [{ id := "7", schedule_id := "s1", pax_count := 1, expires_at := 5,
                consumed := false, created_at := 0 }],
    bookings := [], tickets := [], payment_events := [], nextId := 1, sigCtr := 0 }

/-- Witness for `consume_hold_contract`: at a concrete store, consuming a live
hold succeeds, consuming it again later fails, and consuming a freshly created
ttl = 0 hold fails. -/
theorem consume_hold_contract_witness :
    (consume_hold dbHoldW "7" 0).2 = true
    ∧ (consume_hold (consume_hold dbHoldW "7" 0).1 "7" 3).2 = false
    ∧ (consume_hold (create_hold dbHoldW "s1" 1 4 0).1
        (create_hold dbHoldW "s1" 1 4 0).2.id 6).2 = false := by
  have h1 : (consume_hold dbHoldW "7" 0).2 = true :=
    (consume_hold_contract dbHoldW "7" 0).1.mpr (by decide)
  refine ⟨h1, ?_, ?_⟩
  · exact (consume_hold_contract dbHoldW "7" 0).2.2.2.1 h1 3
  · exact (consume_hold_contract dbHoldW "7" 4).2.2.2.2 "s1" 1 6 (by decide) (by decide)

/-! ## C5: payment-event idempotency -/

theorem webhook_apply_event_of_recorded (db : DB) (ev : WebhookEvent) (now : Time)
    (h : db.payment_events.any (fun p => decide (p.id = ev.id)) = true) :
    webhook_apply_event db (some ev) now = (.ok, db) := by
  simp only [webhook_apply_event]
  rw [h]
  simp

theorem webhook_apply_event_records (db : DB) (ev : WebhookEvent) (now : Time) :
    ((webhook_apply_event db (some ev) now).2).payment_events.any
      (fun p => decide (p.id = ev.id)) = true := by
  simp only [webhook_apply_event]
  by_cases h : db.payment_events.any (fun p => decide (p.id = ev.id)) = true
  · rw [h]; simpa using h
  · simp only [Bool.not_eq_true] at h
    rw [h]
    cases hb : ev.booking_id <;> simp [List.any_append]

/-- Idempotency of the DEAD apply logic (`payments.py` lines 20–43): this is
the behaviour the spec describes and the clear intent of the code, but the
endpoint never reaches it (see `stripe_webhook`). -/
theorem webhook_apply_event_idempotent (db : DB) (ev : WebhookEvent) (now1 now2 : Time) :
    webhook_apply_event (webhook_apply_event db (some ev) now1).2 (some ev) now2 =
      (.ok, (webhook_apply_event db (some ev) now1).2) :=
  webhook_apply_event_of_recorded _ ev now2 (webhook_apply_event_records db ev now1)

/-- C5: evaluation of the endpoint as it actually executes — every delivery,
first or repeated, fails with the 500 from the `TypeError` that the un-awaited
`request.json()` causes, no event is ever recorded and no store row changes;
in particular a second delivery of the same event id never returns success, so
the idempotent-apply contract of the claim does not hold of the code (the
intended logic, `webhook_apply_event`, is dead code and is proved idempotent
in `webhook_apply_event_idempotent`). -/
theorem stripe_webhook_always_500 (db : DB) (event : Option WebhookEvent)
    (now1 now2 : Time) :
    (stripe_webhook db event now1).1 = WebhookResult.internalError
    ∧ (stripe_webhook db event now1).2 = db
    ∧ (stripe_webhook (stripe_webhook db event now1).2 event now2).1
        = WebhookResult.internalError :=
  ⟨rfl, rfl, rfl⟩

/-! ## C6: credential round-trip, expiry and tamper-evidence -/

/-- C6: `verify ∘ issue` returns the claims unchanged while the token is within
its expiry window; returns `ExpiredCredential` once the expiry has elapsed; and
altering any single component of the signature (its nonce bytes or any of the
algebraic tags) makes verification fail with `InvalidCredential`. -/
theorem verify_issue_contract (key nonce : Nat) (claims : QRClaims) (now : Time) :
    (∀ t, ¬ (sign_qr_token key nonce claims now).payload.exp < t →
        verify_qr_token key t (sign_qr_token key nonce claims now) =
          .ok (sign_qr_token key nonce claims now).payload ∧
        (sign_qr_token key nonce claims now).payload.booking_id = claims.booking_id ∧
        (sign_qr_token key nonce claims now).payload.passenger = claims.passenger)
    ∧ (∀ t, (sign_qr_token key nonce claims now).payload.exp < t →
        verify_qr_token key t (sign_qr_token key nonce claims now) =
          .error .expiredCredential)
    ∧ (∀ n t, n ≠ (sign_qr_token key nonce claims now).sig.nonce →
        verify_qr_token key t
          { sign_qr_token key nonce claims now with
            sig := { (sign_qr_token key nonce claims now).sig with nonce := n } } =
          .error .invalidCredential)
    ∧ (∀ k t, k ≠ (sign_qr_token key nonce claims now).sig.keyTag →
        verify_qr_token key t
          { sign_qr_token key nonce claims now with
            sig := { (sign_qr_token key nonce claims now).sig with keyTag := k } } =
          .error .invalidCredential)
    ∧ (∀ p t, p ≠ (sign_qr_token key nonce claims now).sig.payloadTag →
        verify_qr_token key t
          { sign_qr_token key nonce claims now with
            sig := { (sign_qr_token key nonce claims now).sig with payloadTag := p } } =
          .error .invalidCredential)
    ∧ (∀ n t, n ≠ (sign_qr_token key nonce claims now).sig.nonceTag →
        verify_qr_token key t
          { sign_qr_token key nonce claims now with
            sig := { (sign_qr_token key nonce claims now).sig with nonceTag := n } } =
          .error .invalidCredential) := by
  refine ⟨fun t ht => ⟨?_, rfl, rfl⟩, fun t ht => ?_, fun n t hn => ?_,
    fun k t hk => ?_, fun p t hp => ?_, fun n t hn => ?_⟩
  · simp [sign_qr_token, verify_qr_token, sigOk, makeSig] at ht ⊢
    exact ht
  · simp [sign_qr_token, verify_qr_token, sigOk, makeSig] at ht ⊢
    exact ht
  · simp [sign_qr_token, verify_qr_token, sigOk, makeSig] at hn ⊢
    intro h; exact absurd h.symm hn
  · simp [sign_qr_token, verify_qr_token, sigOk, makeSig] at hk ⊢
    intro h; exact absurd h hk
  · simp [sign_qr_token, verify_qr_token, sigOk, makeSig] at hp ⊢
    intro h; exact absurd h hp
  · simp [sign_qr_token, verify_qr_token, sigOk, makeSig] at hn ⊢
    intro h; exact absurd h hn

/-- Witness for `verify_issue_contract` at concrete claims and times: the token
issued at instant 0 verifies at instant 10 and returns the original claims,
fails as expired at instant 2000, and fails as invalid when its signature nonce
is changed from 5 to 6. -/
theorem verify_issue_contract_witness :
    (¬ (sign_qr_token 0 5 ⟨"b1", "Alice"⟩ 0).payload.exp < 10
      ∧ verify_qr_token 0 10 (sign_qr_token 0 5 ⟨"b1", "Alice"⟩ 0) =
          .ok (sign_qr_token 0 5 ⟨"b1", "Alice"⟩ 0).payload
      ∧ (sign_qr_token 0 5 ⟨"b1", "Alice"⟩ 0).payload.booking_id = "b1"
      ∧ (sign_qr_token 0 5 ⟨"b1", "Alice"⟩ 0).payload.passenger = "Alice")
    ∧ ((sign_qr_token 0 5 ⟨"b1", "Alice"⟩ 0).payload.exp < 2000
      ∧ verify_qr_token 0 2000 (sign_qr_token 0 5 ⟨"b1", "Alice"⟩ 0) =
          .error .expiredCredential)
    ∧ ((6 : Nat) ≠ (sign_qr_token 0 5 ⟨"b1", "Alice"⟩ 0).sig.nonce
      ∧ verify_qr_token 0 10
          { sign_qr_token 0 5 ⟨"b1", "Alice"⟩ 0 with
            sig := { (sign_qr_token 0 5 ⟨"b1", "Alice"⟩ 0).sig with nonce := 6 } } =
          .error .invalidCredential) := by
  have h1 := (verify_issue_contract 0 5 ⟨"b1", "Alice"⟩ 0).1 10 (by decide)
  have h2 := (verify_issue_contract 0 5 ⟨"b1", "Alice"⟩ 0).2.1 2000 (by decide)
  have h3 := (verify_issue_contract 0 5 ⟨"b1", "Alice"⟩ 0).2.2.1 6 10 (by decide)
  exact ⟨⟨by decide, h1.1, h1.2.1, h1.2.2⟩, ⟨by decide, h2⟩, ⟨by decide, h3⟩⟩

/-! ## C7: the 409 conflict branch of `create_booking` is unreachable -/

/-- Discriminator for the `409 Unable to secure seats` outcome. -/
def isConflict : Except CBError String → Bool
  | .error .conflict => true
  | _ => false

theorem consume_fresh_hold_true (db : DB) (sid : String) (pax : Nat) (now : Time) :
    (consume_hold (create_hold db sid pax now).1 (create_hold db sid pax now).2.id now).2
      = true := by
  apply (consume_hold_true_iff _ _ _).mpr
  refine ⟨(create_hold db sid pax now).2, ?_, rfl, rfl, ?_⟩
  · simp [create_hold]
  · simp [create_hold, DEFAULT_HOLD_MINUTES]

theorem consume_hold_rows (db : DB) (hold_id : String) (now : Time) :
    (consume_hold db hold_id now).1.schedules = db.schedules
    ∧ (consume_hold db hold_id now).1.bookings = db.bookings
    ∧ (consume_hold db hold_id now).1.tickets = db.tickets
    ∧ (consume_hold db hold_id now).1.payment_events = db.payment_events
    ∧ (consume_hold db hold_id now).1.nextId = db.nextId
    ∧ (consume_hold db hold_id now).1.sigCtr = db.sigCtr := by
  cases hfind : db.holds.find? (consumePred hold_id now) with
  | none => rw [consume_hold_of_find_none db hold_id now hfind]; exact ⟨rfl, rfl, rfl, rfl, rfl, rfl⟩
  | some x => rw [consume_hold_of_find_some db hold_id now x hfind]; exact ⟨rfl, rfl, rfl, rfl, rfl, rfl⟩

/-- Full characterization of `create_booking` as it executes: the fresh hold
always consumes, and every call that survives the schedule lookup and the
pax-count validator dies in `flush_booking_insert` on the NOT NULL `user_id`
the endpoint never sets.  The result never depends on the sampled reference
and the store is only changed through the two hold commits. -/
theorem create_booking_eq (db : DB) (payload : BookingCreate) (now : Time)
    (rng : Nat → Nat) :
    create_booking db payload now rng =
      match db.schedules.find? (fun s => decide (s.id = payload.schedule_id)) with
      | none => (.error .notFound, db)
      | some schedule =>
        match validate_pax_count payload.passengers.length with
        | .error msg => (.error (.validationError msg),
            (consume_hold (create_hold db schedule.id payload.passengers.length now).1
              (create_hold db schedule.id payload.passengers.length now).2.id now).1)
        | .ok _ => (.error .integrityError,
            (consume_hold (create_hold db schedule.id payload.passengers.length now).1
              (create_hold db schedule.id payload.passengers.length now).2.id now).1) := by
  unfold create_booking
  cases hs : db.schedules.find? (fun s => decide (s.id = payload.schedule_id)) with
  | none => rfl
  | some schedule =>
    simp only
    have hc := consume_fresh_hold_true db schedule.id payload.passengers.length now
    simp only [hc, Bool.true_eq_false, if_false]
    cases validate_pax_count payload.passengers.length with
    | error msg => rfl
    | ok paxCount =>
      simp [flush_booking_insert]

/-- Shared helper: no `create_booking` call ever returns a booking id. -/
theorem create_booking_never_ok (db : DB) (payload : BookingCreate) (now : Time)
    (rng : Nat → Nat) (bid : String) :
    (create_booking db payload now rng).1 ≠ .ok bid := by
  rw [create_booking_eq]
  cases hs : db.schedules.find? (fun s => decide (s.id = payload.schedule_id)) with
  | none => intro h; simp at h
  | some schedule =>
    simp only
    cases validate_pax_count payload.passengers.length with
    | error msg => intro h; simp at h
    | ok paxCount => intro h; simp at h

/-- Shared helper: no `create_booking` call changes the bookings or tickets
tables (only the holds table, through the two committed hold operations). -/
theorem create_booking_rows_unchanged (db : DB) (payload : BookingCreate) (now : Time)
    (rng : Nat → Nat) :
    (create_booking db payload now rng).2.bookings = db.bookings
    ∧ (create_booking db payload now rng).2.tickets = db.tickets := by
  rw [create_booking_eq]
  cases hs : db.schedules.find? (fun s => decide (s.id = payload.schedule_id)) with
  | none => exact ⟨rfl, rfl⟩
  | some schedule =>
    simp only
    have hrows := consume_hold_rows
      (create_hold db schedule.id payload.passengers.length now).1
      (create_hold db schedule.id payload.passengers.length now).2.id now
    have hcb : (create_hold db schedule.id payload.passengers.length now).1.bookings
        = db.bookings := by simp [create_hold]
    have hct : (create_hold db schedule.id payload.passengers.length now).1.tickets
        = db.tickets := by simp [create_hold]
    cases validate_pax_count payload.passengers.length with
    | error msg => exact ⟨by rw [hrows.2.1, hcb], by rw [hrows.2.2.1, hct]⟩
    | ok paxCount => exact ⟨by rw [hrows.2.1, hcb], by rw [hrows.2.2.1, hct]⟩

/-- C7: the hold consumed inside `create_booking` is always the hold freshly
created two lines above with the default 10-minute ttl, so the `consume_hold`
call succeeds and the `409` conflict (`CapacityExhausted`) outcome can never be
produced, for any store, payload, instant and randomness. -/
theorem create_booking_conflict_unreachable (db : DB) (payload : BookingCreate)
    (now : Time) (rng : Nat → Nat) :
    (consume_hold (create_hold db payload.schedule_id payload.passengers.length now).1
        (create_hold db payload.schedule_id payload.passengers.length now).2.id now).2 = true
    ∧ isConflict (create_booking db payload now rng).1 = false := by
  refine ⟨consume_fresh_hold_true db payload.schedule_id payload.passengers.length now, ?_⟩
  rw [create_booking_eq]
  cases hs : db.schedules.find? (fun s => decide (s.id = payload.schedule_id)) with
  | none => rfl
  | some schedule =>
    simp only
    cases validate_pax_count payload.passengers.length with
    | error msg => rfl
    | ok paxCount => rfl

/-! ## C2: transaction boundaries of `create_booking` -/

/-- C2 (amended): the Booking row and the Ticket rows are only ever durable
together — in fact neither is ever durable at all: every `create_booking`
outcome (including the `CapacityExhausted` branch, which creates nothing)
leaves the bookings and tickets tables unchanged and never returns a booking
id, because the Booking INSERT violates the NOT NULL `user_id` column the
endpoint never sets at the `db.flush()` preceding ticket issuance.  Hold
creation and consumption, by contrast, are committed separately before that
and stay durable — the counterexample to the one-atomic-unit claim. -/
theorem create_booking_no_rows (db : DB) (payload : BookingCreate) (now : Time)
    (rng : Nat → Nat) :
    (create_booking db payload now rng).2.bookings = db.bookings
    ∧ (create_booking db payload now rng).2.tickets = db.tickets
    ∧ ∀ bid, (create_booking db payload now rng).1 ≠ .ok bid :=
  ⟨(create_booking_rows_unchanged db payload now rng).1,
   (create_booking_rows_unchanged db payload now rng).2,
   fun bid => create_booking_never_ok db payload now rng bid⟩

/-- The store used by the C2 and C9 evaluations: one schedule, nothing else. -/
def dbC2 : DB :=
  { schedules := [{ id := "s1", capacity := 100 }], holds := [], bookings := [],
    tickets := [], payment_events := [], nextId := 0, sigCtr := 0 }

/-- A perfectly valid one-passenger request. -/
def payloadAnn : BookingCreate := ⟨"s1", [⟨"Ann"⟩], none⟩

/-- Counterexample to C2 as stated: on a valid one-passenger request the hold
consumption is made durable by the commit inside `consume_hold`, while the
operation then aborts at the flush of the Booking INSERT (`IntegrityError`
from the unset NOT NULL `user_id`) — the durable result is a consumed hold
with no Booking and no Tickets, so hold-consumption, Booking and Ticket rows
are not committed as one atomic unit. -/
theorem create_booking_not_fully_atomic :
    (create_booking dbC2 payloadAnn 0 (fun _ => 0)).1 = .error .integrityError
    ∧ (∃ h ∈ (create_booking dbC2 payloadAnn 0 (fun _ => 0)).2.holds, h.consumed = true)
    ∧ (create_booking dbC2 payloadAnn 0 (fun _ => 0)).2.bookings = []
    ∧ (create_booking dbC2 payloadAnn 0 (fun _ => 0)).2.tickets = [] :=
  ⟨by rfl, by decide, by decide, by decide⟩

/-- Witness for `create_booking_no_rows` at the concrete input. -/
theorem create_booking_no_rows_witness :
    (create_booking dbC2 payloadAnn 0 (fun _ => 0)).2.bookings = dbC2.bookings
    ∧ (create_booking dbC2 payloadAnn 0 (fun _ => 0)).2.tickets = dbC2.tickets
    ∧ (create_booking dbC2 payloadAnn 0 (fun _ => 0)).1 ≠ .ok "1" :=
  ⟨(create_booking_no_rows dbC2 payloadAnn 0 (fun _ => 0)).1,
   (create_booking_no_rows dbC2 payloadAnn 0 (fun _ => 0)).2.1,
   (create_booking_no_rows dbC2 payloadAnn 0 (fun _ => 0)).2.2 "1"⟩

/-! ## C9: the three-passenger booking scenario -/

/-- The store of the C9 evaluation. -/
def dbW9 : DB :=
  { schedules := [{ id := "s1", capacity := 100 }], holds := [], bookings := [],
    tickets := [], payment_events := [], nextId := 0, sigCtr := 0 }

/-- The 3-passenger request of the C9 scenario. -/
def payloadW9 : BookingCreate := ⟨"s1", [⟨"Alice"⟩, ⟨"Bob"⟩, ⟨"Cara"⟩], none⟩

/-- Evaluation of the C9 scenario on the code: the 3-passenger booking request
aborts at `db.flush()` with the `IntegrityError` from the NOT NULL `user_id`
column the endpoint never sets, before any ticket issuance — no Booking row,
no Ticket row, no `pax_count` — so the successful booking the claim describes
can never be produced by `create_booking`. -/
theorem three_passenger_booking_aborts :
    (create_booking dbW9 payloadW9 0 (fun _ => 0)).1 = .error .integrityError
    ∧ (create_booking dbW9 payloadW9 0 (fun _ => 0)).2.bookings = []
    ∧ (create_booking dbW9 payloadW9 0 (fun _ => 0)).2.tickets = [] :=
  ⟨by rfl, by decide, by decide⟩

/-! ## C8: booking-reference format and collision behaviour -/

theorem upperChoice_isUpper (n : Nat) : (upperChoice n).isUpper = true := by
  unfold upperChoice
  have h : n % 26 < 26 := Nat.mod_lt _ (by norm_num)
  set m := n % 26 with hm
  clear_value m
  interval_cases m <;> decide

theorem digitChoice_isDigit (n : Nat) : (digitChoice n).isDigit = true := by
  unfold digitChoice
  have h : n % 10 < 10 := Nat.mod_lt _ (by norm_num)
  set m := n % 10 with hm
  clear_value m
  interval_cases m <;> decide

/-- C8 (amended): every generated booking reference is the fixed prefix
followed by two uppercase letters, three digits and two uppercase letters.
There is no regeneration retry — the reference is sampled exactly once per
request — and no collision handling is ever exercised, because every Booking
INSERT fails first at flush on the NOT NULL `user_id` the endpoint never sets:
the outcome of `create_booking` does not depend on the sampled randomness at
all, and no call can succeed, collision or not. -/
theorem booking_reference_contract :
    (∀ rng : Nat → Nat, ∃ c1 c2 d1 d2 d3 c4 c5,
        generate_booking_reference rng = "NTX-" ++ String.mk [c1, c2, d1, d2, d3, c4, c5] ∧
        c1.isUpper = true ∧ c2.isUpper = true ∧ d1.isDigit = true ∧ d2.isDigit = true ∧
        d3.isDigit = true ∧ c4.isUpper = true ∧ c5.isUpper = true)
    ∧ (∀ (db : DB) (payload : BookingCreate) (now : Time) (rng rng2 : Nat → Nat),
        create_booking db payload now rng = create_booking db payload now rng2)
    ∧ (∀ (db : DB) (payload : BookingCreate) (now : Time) (rng : Nat → Nat)
        (bid : String), (create_booking db payload now rng).1 ≠ .ok bid) := by
  refine ⟨?_, ?_, ?_⟩
  · intro rng
    exact ⟨_, _, _, _, _, _, _, rfl, upperChoice_isUpper _, upperChoice_isUpper _,
      digitChoice_isDigit _, digitChoice_isDigit _, digitChoice_isDigit _,
      upperChoice_isUpper _, upperChoice_isUpper _⟩
  · intro db payload now rng rng2
    rw [create_booking_eq db payload now rng, create_booking_eq db payload now rng2]
  · intro db payload now rng bid
    exact create_booking_never_ok db payload now rng bid

/-- The store of the C8 counterexample: it already contains a (well-formed)
booking with reference `NTX-AA000AA`, the reference the all-zero randomness
generates. -/
def dbRef : DB :=
  { schedules := [{ id := "s1", capacity := 100 }], holds := [],
    bookings := [{ id := "b0", user_id := some "u0", schedule_id := "s1",
                   status := .confirmed, pax_count := 1, vehicle_type := none,
                   booking_reference := "NTX-AA000AA", created_at := 0 }],
    tickets := [], payment_events := [], nextId := 10, sigCtr := 0 }

/-- Randomness stream of the C8 counterexample: the first seven draws collide
with the existing reference, the next seven would produce a fresh one. -/
def rngCollide : Nat → Nat := fun i => if i < 7 then 0 else 1

/-- Counterexample to C8 as stated: with a colliding reference sample the
request fails with the fatal `IntegrityError` with no regeneration — and the
very same failure occurs with a randomness stream whose sample is fresh,
because every Booking INSERT aborts at flush on the unset NOT NULL `user_id`
before the `booking_reference` unique constraint is ever evaluated.  The
claimed collision-triggered bounded-retry mechanism does not exist in the
code. -/
theorem booking_reference_collision_no_retry :
    generate_booking_reference rngCollide = "NTX-AA000AA"
    ∧ (∃ b0 ∈ dbRef.bookings, b0.booking_reference = "NTX-AA000AA")
    ∧ (create_booking dbRef payloadAnn 0 rngCollide).1 = .error .integrityError
    ∧ generate_booking_reference (fun i => rngCollide (i + 7)) = "NTX-BB111BB"
    ∧ (∀ b0 ∈ dbRef.bookings, b0.booking_reference ≠ "NTX-BB111BB")
    ∧ create_booking dbRef payloadAnn 0 rngCollide
        = create_booking dbRef payloadAnn 0 (fun i => rngCollide (i + 7))
    ∧ (create_booking dbRef payloadAnn 0 rngCollide).2.bookings = dbRef.bookings :=
  ⟨by decide, by decide, by rfl, by decide, by decide, by rfl, by decide⟩

/-- Witness for `booking_reference_contract` at concrete inputs: the result of
a request is identical under colliding and fresh randomness, and never a
success. -/
theorem booking_reference_contract_witness :
    create_booking dbRef payloadAnn 0 rngCollide
      = create_booking dbRef payloadAnn 0 (fun i => rngCollide (i + 7))
    ∧ (create_booking dbRef payloadAnn 0 rngCollide).1 ≠ .ok "11" :=
  ⟨booking_reference_contract.2.1 dbRef payloadAnn 0 rngCollide (fun i => rngCollide (i + 7)),
   booking_reference_contract.2.2 dbRef payloadAnn 0 rngCollide "11"⟩

/-! ## C1: the capacity bound on confirmed bookings -/

/-- The store of the C1 evaluation: a single sailing of capacity 2. -/
def dbCap : DB :=
  { schedules := [{ id := "s1", capacity := 2 }], holds := [], bookings := [],
    tickets := [], payment_events := [], nextId := 0, sigCtr := 0 }

/-- A booking request for 2 passengers on that sailing. -/
def payloadCap : BookingCreate := ⟨"s1", [⟨"Alice"⟩, ⟨"Bob"⟩], none⟩

/-- Evaluation of the C1 scenario on the code: on a sailing of capacity 2, two
sequential 2-passenger requests BOTH fail with the 500 `IntegrityError` from
the unset NOT NULL `user_id` — neither returns a booking id and neither
observes the `CapacityExhausted` conflict (409), which C7 shows unreachable —
so the exactly-one-succeeds-one-conflicts behaviour the claim requires is
false of the code.  (Independently, no code path ever consults
`Schedule.capacity`, so nothing would bound the confirmed pax sum if Booking
rows could commit.) -/
theorem capacity_scenario_both_fail :
    dbCap.schedules.map Schedule.capacity = [2]
    ∧ (create_booking dbCap payloadCap 0 (fun _ => 0)).1 = .error .integrityError
    ∧ (create_booking (create_booking dbCap payloadCap 0 (fun _ => 0)).2
        payloadCap 1 (fun i => i)).1 = .error .integrityError
    ∧ (create_booking dbCap payloadCap 0 (fun _ => 0)).1 ≠ .error .conflict
    ∧ confirmedPax (create_booking (create_booking dbCap payloadCap 0 (fun _ => 0)).2
        payloadCap 1 (fun i => i)).2 "s1" = 0 := by
  refine ⟨by decide, by rfl, by rfl, ?_, by decide⟩
  intro h
  change Except.error CBError.integrityError = Except.error CBError.conflict at h
  simp at h

/-! ## Scan-gate machinery for C4 and C10 -/

theorem verify_ok_iff (key : Nat) (now : Time) (tok : QRToken) (data : QRPayload) :
    verify_qr_token key now tok = .ok data ↔
      sigOk key tok.payload tok.sig = true ∧ ¬ tok.payload.exp < now ∧ data = tok.payload := by
  unfold verify_qr_token
  by_cases hs : sigOk key tok.payload tok.sig = true
  · rw [if_pos hs]
    by_cases he : tok.payload.exp < now
    · rw [if_pos he]; simp [hs, he]
    · rw [if_neg he]
      constructor
      · intro h; exact ⟨hs, he, by simpa using h.symm⟩
      · rintro ⟨_, _, rfl⟩; rfl
  · rw [if_neg hs]; simp [hs]

theorem scan_ticket_of_verify_error (db : DB) (tok : QRToken) (now : Time) (e : VerifyError)
    (h : verify_qr_token settingsKey now tok = .error e) :
    scan_ticket db tok now = ({ valid := false, reason := some (verifyErrorMessage e) }, db) := by
  unfold scan_ticket
  rw [h]

theorem scan_ticket_of_not_found (db : DB) (tok : QRToken) (now : Time) (data : QRPayload)
    (hv : verify_qr_token settingsKey now tok = .ok data)
    (hf : db.tickets.find? (ticketKeyMatch data.booking_id data.passenger) = none) :
    scan_ticket db tok now =
      ({ valid := false, reason := some "Ticket not found for booking" }, db) := by
  unfold scan_ticket
  rw [hv]
  dsimp only
  rw [hf]

theorem scan_ticket_of_used (db : DB) (tok : QRToken) (now : Time) (data : QRPayload)
    (ticket : Ticket)
    (hv : verify_qr_token settingsKey now tok = .ok data)
    (hf : db.tickets.find? (ticketKeyMatch data.booking_id data.passenger) = some ticket)
    (hu : ticket.used = true) :
    scan_ticket db tok now =
      ({ valid := false, reason := some "Ticket already used",
         ticket_id := some ticket.id, booking_id := some ticket.booking_id }, db) := by
  unfold scan_ticket
  rw [hv]
  dsimp only
  rw [hf]
  simp [hu]

theorem scan_ticket_of_unused (db : DB) (tok : QRToken) (now : Time) (data : QRPayload)
    (ticket : Ticket)
    (hv : verify_qr_token settingsKey now tok = .ok data)
    (hf : db.tickets.find? (ticketKeyMatch data.booking_id data.passenger) = some ticket)
    (hu : ticket.used = false) :
    scan_ticket db tok now =
      ({ valid := true, ticket_id := some ticket.id, booking_id := some ticket.booking_id },
       { db with tickets := db.tickets.map (markUsed ticket.id now) }) := by
  unfold scan_ticket
  rw [hv]
  dsimp only
  rw [hf]
  have hmem : ticket ∈ db.tickets := List.mem_of_find?_eq_some hf
  have hlen : (db.tickets.filter (fun t =>
      decide (t.id = ticket.id) && decide (t.used = false))).length ≠ 0 := by
    have hmf : ticket ∈ db.tickets.filter (fun t =>
        decide (t.id = ticket.id) && decide (t.used = false)) := by
      rw [List.mem_filter]
      exact ⟨hmem, by simp [hu]⟩
    intro hz
    rw [List.length_eq_zero] at hz
    rw [hz] at hmf
    simp at hmf
  simp only [hu, Bool.false_eq_true, if_false]
  rw [if_neg hlen]

/-- One ticket row evolving under scans: identity, ownership, name and token
never change, and `used` only ever goes from `false` to `true`. -/
def ticketEvolves (t t' : Ticket) : Prop :=
  t'.id = t.id ∧ t'.booking_id = t.booking_id ∧ t'.passenger_name = t.passenger_name ∧
  t'.qr_token = t.qr_token ∧ (t.used = true → t'.used = true)

/-- The whole tickets table evolving row-wise under scans. -/
def ticketsEvolve : List Ticket → List Ticket → Prop := List.Forall₂ ticketEvolves

theorem ticketEvolves_refl (t : Ticket) : ticketEvolves t t :=
  ⟨rfl, rfl, rfl, rfl, fun h => h⟩

theorem ticketEvolves_trans {a b c : Ticket} (h1 : ticketEvolves a b)
    (h2 : ticketEvolves b c) : ticketEvolves a c :=
  ⟨h2.1.trans h1.1, h2.2.1.trans h1.2.1, h2.2.2.1.trans h1.2.2.1,
   h2.2.2.2.1.trans h1.2.2.2.1, fun h => h2.2.2.2.2 (h1.2.2.2.2 h)⟩

theorem ticketsEvolve_refl (l : List Ticket) : ticketsEvolve l l := by
  induction l with
  | nil => exact List.Forall₂.nil
  | cons a tl ih => exact List.Forall₂.cons (ticketEvolves_refl a) ih

theorem ticketsEvolve_trans : ∀ {l1 l2 l3 : List Ticket},
    ticketsEvolve l1 l2 → ticketsEvolve l2 l3 → ticketsEvolve l1 l3 := by
  intro l1
  induction l1 with
  | nil =>
    intro l2 l3 h12 h23
    cases h12
    cases h23
    exact List.Forall₂.nil
  | cons a tl ih =>
    intro l2 l3 h12 h23
    cases h12 with
    | cons hab htl =>
      cases h23 with
      | cons hbc htl' =>
        exact List.Forall₂.cons (ticketEvolves_trans hab hbc) (ih htl htl')

theorem ticketKeyMatch_evolve {t t' : Ticket} (h : ticketEvolves t t') (b p : String) :
    ticketKeyMatch b p t' = ticketKeyMatch b p t := by
  unfold ticketKeyMatch
  rw [h.2.1, h.2.2.1]

theorem find?_evolve_some : ∀ {l l' : List Ticket}, ticketsEvolve l l' → ∀ (b p : String)
    (t : Ticket), l.find? (ticketKeyMatch b p) = some t →
    ∃ t', l'.find? (ticketKeyMatch b p) = some t' ∧ ticketEvolves t t' := by
  intro l
  induction l with
  | nil => intro l' h b p t hf; simp at hf
  | cons a tl ih =>
    intro l' h b p t hf
    cases h with
    | cons hab htl =>
      rename_i a' tl'
      by_cases hk : ticketKeyMatch b p a = true
      · rw [List.find?_cons_of_pos _ hk] at hf
        have ht : a = t := by simpa using hf
        rw [List.find?_cons_of_pos _ (by rw [ticketKeyMatch_evolve hab b p]; exact hk)]
        exact ⟨a', rfl, ht ▸ hab⟩
      · rw [List.find?_cons_of_neg _ hk] at hf
        rw [List.find?_cons_of_neg _ (by rw [ticketKeyMatch_evolve hab b p]; exact hk)]
        exact ih htl b p t hf

theorem find?_map_key (f : Ticket → Ticket) (b p : String)
    (hf : ∀ t, ticketKeyMatch b p (f t) = ticketKeyMatch b p t) :
    ∀ (l : List Ticket) (x : Ticket), l.find? (ticketKeyMatch b p) = some x →
      (l.map f).find? (ticketKeyMatch b p) = some (f x) := by
  intro l
  induction l with
  | nil => intro x h; simp at h
  | cons a tl ih =>
    intro x h
    rw [List.map_cons]
    by_cases hk : ticketKeyMatch b p a = true
    · rw [List.find?_cons_of_pos _ hk] at h
      rw [List.find?_cons_of_pos _ (by rw [hf a]; exact hk)]
      have hax : a = x := by simpa using h
      rw [hax]
    · rw [List.find?_cons_of_neg _ hk] at h
      rw [List.find?_cons_of_neg _ (by rw [hf a]; exact hk)]
      exact ih x h

theorem markUsed_id (tid : String) (now : Time) (t : Ticket) :
    (markUsed tid now t).id = t.id := by
  unfold markUsed
  by_cases h : t.id = tid ∧ t.used = false
  · rw [if_pos h]
  · rw [if_neg h]

theorem markUsed_key (tid : String) (now : Time) (b p : String) (t : Ticket) :
    ticketKeyMatch b p (markUsed tid now t) = ticketKeyMatch b p t := by
  unfold markUsed ticketKeyMatch
  by_cases h : t.id = tid ∧ t.used = false
  · rw [if_pos h]
  · rw [if_neg h]

theorem markUsed_evolves (tid : String) (now : Time) (t : Ticket) :
    ticketEvolves t (markUsed tid now t) := by
  unfold markUsed
  by_cases h : t.id = tid ∧ t.used = false
  · rw [if_pos h]
    exact ⟨rfl, rfl, rfl, rfl, fun _ => rfl⟩
  · rw [if_neg h]
    exact ticketEvolves_refl t

theorem evolve_map (f : Ticket → Ticket) (hf : ∀ t, ticketEvolves t (f t)) :
    ∀ l : List Ticket, ticketsEvolve l (l.map f) := by
  intro l
  induction l with
  | nil => exact List.Forall₂.nil
  | cons a tl ih => exact List.Forall₂.cons (hf a) ih

theorem scan_ticket_evolves (db : DB) (tok : QRToken) (now : Time) :
    ticketsEvolve db.tickets (scan_ticket db tok now).2.tickets := by
  cases hv : verify_qr_token settingsKey now tok with
  | error e =>
    rw [scan_ticket_of_verify_error db tok now e hv]
    exact ticketsEvolve_refl _
  | ok data =>
    cases hf : db.tickets.find? (ticketKeyMatch data.booking_id data.passenger) with
    | none =>
      rw [scan_ticket_of_not_found db tok now data hv hf]
      exact ticketsEvolve_refl _
    | some ticket =>
      cases hu : ticket.used with
      | true =>
        rw [scan_ticket_of_used db tok now data ticket hv hf hu]
        exact ticketsEvolve_refl _
      | false =>
        rw [scan_ticket_of_unused db tok now data ticket hv hf hu]
        exact evolve_map _ (markUsed_evolves ticket.id now) _

theorem runScans_evolves (L : List (QRToken × Time)) : ∀ db : DB,
    ticketsEvolve db.tickets (runScans db L).1.tickets := by
  induction L with
  | nil => intro db; exact ticketsEvolve_refl _
  | cons s rest ih =>
    intro db
    exact ticketsEvolve_trans (scan_ticket_evolves db s.1 s.2) (ih (scan_ticket db s.1 s.2).2)

/-- The first ticket row matching the credential key `(b, p)` is already marked
used. -/
def usedMarked (db : DB) (b p : String) : Prop :=
  ∃ t, db.tickets.find? (ticketKeyMatch b p) = some t ∧ t.used = true

theorem usedMarked_scan (db : DB) (tok : QRToken) (now : Time) (b p : String)
    (h : usedMarked db b p) : usedMarked (scan_ticket db tok now).2 b p := by
  rcases h with ⟨t, hf, hu⟩
  rcases find?_evolve_some (scan_ticket_evolves db tok now) b p t hf with ⟨t', hf', he⟩
  exact ⟨t', hf', he.2.2.2.2 hu⟩

theorem usedMarked_runScans (L : List (QRToken × Time)) : ∀ (db : DB) (b p : String),
    usedMarked db b p → usedMarked (runScans db L).1 b p := by
  induction L with
  | nil => intro db b p h; exact h
  | cons s rest ih =>
    intro db b p h
    exact ih (scan_ticket db s.1 s.2).2 b p (usedMarked_scan db s.1 s.2 b p h)

theorem scan_ticket_invalid_of_usedMarked (db : DB) (tok : QRToken) (now : Time)
    (h : usedMarked db tok.payload.booking_id tok.payload.passenger) :
    (scan_ticket db tok now).1.valid = false := by
  rcases h with ⟨t, hf, hu⟩
  cases hv : verify_qr_token settingsKey now tok with
  | error e => rw [scan_ticket_of_verify_error db tok now e hv]
  | ok data =>
    have hd : data = tok.payload := ((verify_ok_iff _ _ _ _).mp hv).2.2
    rw [scan_ticket_of_used db tok now data t hv (by rw [hd]; exact hf) hu]

theorem scan_ticket_already_used_of_usedMarked (db : DB) (tok : QRToken) (now : Time)
    (hs : sigOk settingsKey tok.payload tok.sig = true) (he : ¬ tok.payload.exp < now)
    (h : usedMarked db tok.payload.booking_id tok.payload.passenger) :
    ∃ tk, db.tickets.find? (ticketKeyMatch tok.payload.booking_id tok.payload.passenger)
        = some tk ∧ tk.booking_id = tok.payload.booking_id ∧
      (scan_ticket db tok now).1 =
        { valid := false, ticket_id := some tk.id, booking_id := some tk.booking_id,
          reason := some "Ticket already used" } := by
  rcases h with ⟨t, hf, hu⟩
  have hv : verify_qr_token settingsKey now tok = .ok tok.payload :=
    (verify_ok_iff _ _ _ _).mpr ⟨hs, he, rfl⟩
  have hkey := List.find?_some hf
  unfold ticketKeyMatch at hkey
  simp only [Bool.and_eq_true, decide_eq_true_eq] at hkey
  exact ⟨t, hf, hkey.1, by rw [scan_ticket_of_used db tok now tok.payload t hv hf hu]⟩

theorem scan_ticket_valid_elim (db : DB) (tok : QRToken) (now : Time)
    (h : (scan_ticket db tok now).1.valid = true) :
    verify_qr_token settingsKey now tok = .ok tok.payload ∧
    ∃ tk, db.tickets.find? (ticketKeyMatch tok.payload.booking_id tok.payload.passenger)
        = some tk ∧ tk.used = false ∧
      (scan_ticket db tok now).2 =
        { db with tickets := db.tickets.map (markUsed tk.id now) } := by
  cases hv : verify_qr_token settingsKey now tok with
  | error e => rw [scan_ticket_of_verify_error db tok now e hv] at h; simp at h
  | ok data =>
    have hd : data = tok.payload := ((verify_ok_iff _ _ _ _).mp hv).2.2
    cases hf : db.tickets.find? (ticketKeyMatch tok.payload.booking_id tok.payload.passenger) with
    | none =>
      rw [scan_ticket_of_not_found db tok now data hv (by rw [hd]; exact hf)] at h
      simp at h
    | some tk =>
      cases hu : tk.used with
      | true =>
        rw [scan_ticket_of_used db tok now data tk hv (by rw [hd]; exact hf) hu] at h
        simp at h
      | false =>
        refine ⟨by rw [hd], tk, rfl, hu, ?_⟩
        rw [scan_ticket_of_unused db tok now data tk hv (by rw [hd]; exact hf) hu]

theorem scan_ticket_usedMarked_of_valid (db : DB) (tok : QRToken) (now : Time)
    (h : (scan_ticket db tok now).1.valid = true) :
    usedMarked (scan_ticket db tok now).2 tok.payload.booking_id tok.payload.passenger := by
  rcases scan_ticket_valid_elim db tok now h with ⟨hv, tk, hf, hu, hdb⟩
  refine ⟨markUsed tk.id now tk, ?_, ?_⟩
  · rw [hdb]
    exact find?_map_key (markUsed tk.id now) _ _ (markUsed_key tk.id now _ _) db.tickets tk hf
  · unfold markUsed
    rw [if_pos ⟨rfl, hu⟩]

/-- Number of scans in a request sequence that presented token `T` and were
answered `valid = true`. -/
def successCount (T : QRToken) (scans : List (QRToken × Time))
    (resps : List ScanResponse) : Nat :=
  ((scans.zip resps).filter (fun pr => decide (pr.1.1 = T) && pr.2.valid)).length

theorem successCount_zero_of_usedMarked (T : QRToken) (L : List (QRToken × Time)) :
    ∀ db : DB, usedMarked db T.payload.booking_id T.payload.passenger →
    successCount T L (runScans db L).2 = 0 := by
  induction L with
  | nil => intro db _; rfl
  | cons s rest ih =>
    intro db h
    show ((( s :: rest).zip ((scan_ticket db s.1 s.2).1 :: (runScans (scan_ticket db s.1 s.2).2 rest).2)).filter
      (fun pr => decide (pr.1.1 = T) && pr.2.valid)).length = 0
    rw [List.zip_cons_cons, List.filter_cons]
    have hnext := ih (scan_ticket db s.1 s.2).2 (usedMarked_scan db s.1 s.2 _ _ h)
    by_cases hT : s.1 = T
    · have hval : (scan_ticket db s.1 s.2).1.valid = false := by
        rw [hT]
        exact scan_ticket_invalid_of_usedMarked db T s.2 h
      have hpred : (decide (s.1 = T) && (scan_ticket db s.1 s.2).1.valid) = false := by
        simp [hval]
      simp only [hpred, Bool.false_eq_true, if_false]
      exact hnext
    · have hpred : (decide (s.1 = T) && (scan_ticket db s.1 s.2).1.valid) = false := by
        simp [hT]
      simp only [hpred, Bool.false_eq_true, if_false]
      exact hnext

theorem successCount_le_one (T : QRToken) (L : List (QRToken × Time)) :
    ∀ db : DB, successCount T L (runScans db L).2 ≤ 1 := by
  induction L with
  | nil => intro db; exact Nat.zero_le 1
  | cons s rest ih =>
    intro db
    show (((s :: rest).zip ((scan_ticket db s.1 s.2).1 :: (runScans (scan_ticket db s.1 s.2).2 rest).2)).filter
      (fun pr => decide (pr.1.1 = T) && pr.2.valid)).length ≤ 1
    rw [List.zip_cons_cons, List.filter_cons]
    by_cases hp : (decide (s.1 = T) && (scan_ticket db s.1 s.2).1.valid) = true
    · simp only [hp, if_true, List.length_cons]
      have hp' := hp
      rw [Bool.and_eq_true, decide_eq_true_eq] at hp'
      obtain ⟨hT, hval⟩ := hp'
      have hused : usedMarked (scan_ticket db s.1 s.2).2 T.payload.booking_id
          T.payload.passenger := by
        rw [← hT]
        exact scan_ticket_usedMarked_of_valid db s.1 s.2 hval
      have hz := successCount_zero_of_usedMarked T rest (scan_ticket db s.1 s.2).2 hused
      unfold successCount at hz
      rw [hz]
    · simp only [hp, Bool.false_eq_true, if_false]
      exact ih (scan_ticket db s.1 s.2).2

/-- C4 (amended): over any sequence of scan requests, a given token is
answered `valid = true` at most once; once a scan of token `T` has succeeded,
every later scan of `T` made while the token still verifies is answered
`valid = false` with reason "Ticket already used" together with the ticket and
booking identifiers; but a scan of a well-signed token made after its expiry
instant is answered `valid = false` with the signature-expiry reason and NO
identifiers — so after the expiry elapses, repeat attempts stop reporting
"already used" (the counterexample to the claim as stated), and in no case is
there a second success. -/
theorem redeem_at_most_once :
    (∀ (T : QRToken) (L : List (QRToken × Time)) (db : DB),
      successCount T L (runScans db L).2 ≤ 1)
    ∧ (∀ (db : DB) (L1 L2 : List (QRToken × Time)) (T : QRToken) (t1 t2 : Time),
      (scan_ticket (runScans db L1).1 T t1).1.valid = true →
      ¬ T.payload.exp < t2 →
      ∃ tid, (scan_ticket (runScans (scan_ticket (runScans db L1).1 T t1).2 L2).1 T t2).1 =
        { valid := false, ticket_id := some tid,
          booking_id := some T.payload.booking_id,
          reason := some "Ticket already used" })
    ∧ (∀ (db : DB) (T : QRToken) (t : Time),
      sigOk settingsKey T.payload T.sig = true →
      T.payload.exp < t →
      (scan_ticket db T t).1 =
        { valid := false, ticket_id := none, booking_id := none,
          reason := some "Signature has expired." }) := by
  refine ⟨?_, ?_, ?_⟩
  · intro T L db; exact successCount_le_one T L db
  · intro db L1 L2 T t1 t2 h1 he2
    have hv1 := (scan_ticket_valid_elim (runScans db L1).1 T t1 h1).1
    have hs : sigOk settingsKey T.payload T.sig = true := ((verify_ok_iff _ _ _ _).mp hv1).1
    have hm1 : usedMarked (scan_ticket (runScans db L1).1 T t1).2
        T.payload.booking_id T.payload.passenger :=
      scan_ticket_usedMarked_of_valid (runScans db L1).1 T t1 h1
    have hm2 := usedMarked_runScans L2 _ _ _ hm1
    rcases scan_ticket_already_used_of_usedMarked _ T t2 hs he2 hm2 with
      ⟨tk, _, hbid, hresp⟩
    exact ⟨tk.id, by rw [hresp, hbid]⟩
  · intro db T t hsig hexp
    have hv : verify_qr_token settingsKey t T = .error .expiredCredential := by
      unfold verify_qr_token
      rw [if_pos hsig, if_pos hexp]
    rw [scan_ticket_of_verify_error db T t .expiredCredential hv]
    rfl

/-- Token and store for the C4 witness: one unused ticket and its credential. -/
def tokScanW : QRToken := sign_qr_token settingsKey 5 ⟨"b1", "Alice"⟩ 0

/-- Store for the C4 witness. -/
def dbScanW : DB :=
  { schedules := [], holds := [], bookings := [],
    tickets := [{ id := "t1", booking_id := "b1", passenger_name := "Alice",
                  used := false, used_at := none, qr_token := tokScanW }],
    payment_events := [], nextId := 0, sigCtr := 0 }

/-- Counterexample to C4 as stated: after a successful first scan, a repeat
scan of the very same token made after the token expiry (`exp = 1440`, scan at
2000) is answered with the signature-expiry reason and carries no ticket or
booking identifier — not the "already used" decline with identifiers the
claim promises for every attempt after the first success. -/
theorem redeem_after_expiry_not_already_used :
    (scan_ticket dbScanW tokScanW 1).1.valid = true
    ∧ tokScanW.payload.exp < 2000
    ∧ (scan_ticket (scan_ticket dbScanW tokScanW 1).2 tokScanW 2000).1 =
        { valid := false, ticket_id := none, booking_id := none,
          reason := some "Signature has expired." }
    ∧ (scan_ticket (scan_ticket dbScanW tokScanW 1).2 tokScanW 2000).1.reason
        ≠ some "Ticket already used"
    ∧ (scan_ticket (scan_ticket dbScanW tokScanW 1).2 tokScanW 2000).1.ticket_id = none :=
  ⟨by decide, by decide, by decide, by decide, by decide⟩

/-- Witness for `redeem_at_most_once`: a concrete first scan succeeds, the
in-window repeat scan of the same token is answered "Ticket already used" with
the identifiers, and the post-expiry repeat scan is answered with the expiry
reason. -/
theorem redeem_at_most_once_witness :
    ((scan_ticket (runScans dbScanW []).1 tokScanW 1).1.valid = true
    ∧ ¬ tokScanW.payload.exp < 2
    ∧ ∃ tid, (scan_ticket (runScans (scan_ticket (runScans dbScanW []).1 tokScanW 1).2 []).1
        tokScanW 2).1 =
      { valid := false, ticket_id := some tid,
        booking_id := some tokScanW.payload.booking_id,
        reason := some "Ticket already used" })
    ∧ (sigOk settingsKey tokScanW.payload tokScanW.sig = true
    ∧ tokScanW.payload.exp < 2000
    ∧ (scan_ticket dbScanW tokScanW 2000).1 =
        { valid := false, ticket_id := none, booking_id := none,
          reason := some "Signature has expired." }) :=
  ⟨⟨by decide, by decide,
    redeem_at_most_once.2.1 dbScanW [] [] tokScanW 1 2 (by decide) (by decide)⟩,
   ⟨by decide, by decide,
    redeem_at_most_once.2.2 dbScanW tokScanW 2000 (by decide) (by decide)⟩⟩

/-! ## C10: duplicate passenger names shadow later ticket rows at the gate -/

theorem find?_first {α : Type} (p : α → Bool) :
    ∀ (l : List α) (x : α), l.find? p = some x →
      ∃ k, l[k]? = some x ∧ ∀ (m : Nat) (z : α), m < k → l[m]? = some z → p z = false := by
  intro l
  induction l with
  | nil => intro x h; simp at h
  | cons a tl ih =>
    intro x h
    by_cases pa : p a = true
    · rw [List.find?_cons_of_pos _ pa] at h
      have hax : a = x := by simpa using h
      exact ⟨0, by simp [hax], fun m z hm _ => absurd hm (Nat.not_lt_zero m)⟩
    · rw [List.find?_cons_of_neg _ pa] at h
      rcases ih x h with ⟨k, hk, hmin⟩
      refine ⟨k + 1, by simpa using hk, ?_⟩
      intro m z hm hz
      cases m with
      | zero =>
        have haz : a = z := by simpa using hz
        rw [← haz]
        exact Bool.eq_false_iff.mpr pa
      | succ m' =>
        exact hmin m' z (by omega) (by simpa using hz)

theorem markUsed_booking_id (tid : String) (now : Time) (t : Ticket) :
    (markUsed tid now t).booking_id = t.booking_id := by
  unfold markUsed
  by_cases h : t.id = tid ∧ t.used = false
  · rw [if_pos h]
  · rw [if_neg h]

theorem markUsed_passenger_name (tid : String) (now : Time) (t : Ticket) :
    (markUsed tid now t).passenger_name = t.passenger_name := by
  unfold markUsed
  by_cases h : t.id = tid ∧ t.used = false
  · rw [if_pos h]
  · rw [if_neg h]

theorem scan_preserves_shadowed (db : DB) (tok : QRToken) (now : Time)
    (i j : Nat) (ti tj : Ticket)
    (hnd : (db.tickets.map Ticket.id).Nodup)
    (hij : i < j)
    (hi : db.tickets[i]? = some ti) (hj : db.tickets[j]? = some tj)
    (hb : ti.booking_id = tj.booking_id) (hp : ti.passenger_name = tj.passenger_name)
    (_hu : tj.used = false) :
    (scan_ticket db tok now).2.tickets.map Ticket.id = db.tickets.map Ticket.id
    ∧ (scan_ticket db tok now).2.tickets[j]? = some tj
    ∧ ∃ ti', (scan_ticket db tok now).2.tickets[i]? = some ti' ∧
        ti'.booking_id = ti.booking_id ∧ ti'.passenger_name = ti.passenger_name := by
  cases hv : verify_qr_token settingsKey now tok with
  | error e =>
    rw [scan_ticket_of_verify_error db tok now e hv]
    exact ⟨rfl, hj, ti, hi, rfl, rfl⟩
  | ok data =>
    cases hf : db.tickets.find? (ticketKeyMatch data.booking_id data.passenger) with
    | none =>
      rw [scan_ticket_of_not_found db tok now data hv hf]
      exact ⟨rfl, hj, ti, hi, rfl, rfl⟩
    | some tk =>
      cases hus : tk.used with
      | true =>
        rw [scan_ticket_of_used db tok now data tk hv hf hus]
        exact ⟨rfl, hj, ti, hi, rfl, rfl⟩
      | false =>
        rw [scan_ticket_of_unused db tok now data tk hv hf hus]
        have hids : (db.tickets.map (markUsed tk.id now)).map Ticket.id
            = db.tickets.map Ticket.id := by
          rw [List.map_map]
          exact List.map_congr_left (fun t _ => markUsed_id tk.id now t)
        have hjlen : j < db.tickets.length := by
          rcases List.getElem?_eq_some.mp hj with ⟨hh, _⟩
          exact hh
        have htjid : tj.id ≠ tk.id := by
          intro heq
          rcases find?_first _ db.tickets tk hf with ⟨k, hk, hmin⟩
          have hjk : j = k := by
            have hlen2 : j < (db.tickets.map Ticket.id).length := by
              rw [List.length_map]; exact hjlen
            have heq2 : (db.tickets.map Ticket.id)[j]? = (db.tickets.map Ticket.id)[k]? := by
              rw [List.getElem?_map, List.getElem?_map, hj, hk]
              simp [heq]
            exact List.getElem?_inj hlen2 hnd heq2
          have htkj : tk = tj := by
            rw [← hjk] at hk
            rw [hj] at hk
            simpa using hk.symm
          have hκtk : ticketKeyMatch data.booking_id data.passenger tk = true :=
            List.find?_some hf
          have hκti : ticketKeyMatch data.booking_id data.passenger ti = true := by
            unfold ticketKeyMatch at hκtk ⊢
            rw [htkj] at hκtk
            simp only [Bool.and_eq_true, decide_eq_true_eq] at hκtk ⊢
            exact ⟨hb.trans hκtk.1, hp.trans hκtk.2⟩
          have hmini := hmin i ti (by omega) hi
          rw [hκti] at hmini
          simp at hmini
        refine ⟨hids, ?_, markUsed tk.id now ti, ?_, markUsed_booking_id tk.id now ti,
          markUsed_passenger_name tk.id now ti⟩
        · show (db.tickets.map (markUsed tk.id now))[j]? = some tj
          rw [List.getElem?_map, hj]
          have hmu : markUsed tk.id now tj = tj := by
            unfold markUsed
            rw [if_neg (fun hand => htjid hand.1)]
          simp [hmu]
        · show (db.tickets.map (markUsed tk.id now))[i]? = some (markUsed tk.id now ti)
          rw [List.getElem?_map, hi]
          rfl

/-- C10: the scan gate resolves a credential by the pair
`(booking_id, passenger_name)` and takes the first matching ticket row, and
passenger names are normalized the same way at booking input and at ticket
persistence; consequently a ticket row that is preceded by another row with the
same key is invisible to redemption: over any sequence of scans it stays
exactly as it was — in particular never marked used — so at most one of the
tickets of the same-named passengers of a booking can ever be marked used via scan. -/
theorem scan_shadowed_ticket_never_used (L : List (QRToken × Time)) :
    ∀ (db : DB) (i j : Nat) (ti tj : Ticket),
      (db.tickets.map Ticket.id).Nodup →
      i < j →
      db.tickets[i]? = some ti → db.tickets[j]? = some tj →
      ti.booking_id = tj.booking_id → ti.passenger_name = tj.passenger_name →
      tj.used = false →
      (runScans db L).1.tickets[j]? = some tj := by
  induction L with
  | nil =>
    intro db i j ti tj _ _ _ hj _ _ _
    exact hj
  | cons s rest ih =>
    intro db i j ti tj hnd hij hi hj hb hp hu
    rcases scan_preserves_shadowed db s.1 s.2 i j ti tj hnd hij hi hj hb hp hu with
      ⟨hids, hj', ti', hi', hb', hp'⟩
    exact ih (scan_ticket db s.1 s.2).2 i j ti' tj (by rw [hids]; exact hnd) hij hi' hj'
      (hb'.trans hb) (hp'.trans hp) hu

/-- The first (shadowing) ticket row of the C10 witness store: passenger
"Anna Lee", exactly as both validators normalize "anna lee". -/
def tiDup : Ticket :=
  { id := "2", booking_id := "1", passenger_name := "Anna Lee", used := false,
    used_at := none, qr_token := sign_qr_token settingsKey 0 ⟨"1", "Anna Lee"⟩ 0 }

/-- The second (shadowed) ticket row: same booking, same normalized name,
its own distinct signed credential. -/
def tjDup : Ticket :=
  { id := "3", booking_id := "1", passenger_name := "Anna Lee", used := false,
    used_at := none, qr_token := sign_qr_token settingsKey 1 ⟨"1", "Anna Lee"⟩ 0 }

/-- The C10 witness store: a booking with two tickets whose passengers share
the normalized name "Anna Lee" (what ticket persistence stores for a booking
made with two such passengers). -/
def dbDup : DB :=
  { schedules := [{ id := "s1", capacity := 100 }], holds := [],
    bookings := [{ id := "1", user_id := some "u0", schedule_id := "s1",
                   status := .confirmed, pax_count := 2, vehicle_type := none,
                   booking_reference := "NTX-AA000AA", created_at := 0 }],
    tickets := [tiDup, tjDup], payment_events := [], nextId := 4, sigCtr := 2 }

/-- Witness for `scan_shadowed_ticket_never_used`: in the two-same-name
booking, even scanning the credential of the second passenger twice leaves the
second ticket row untouched (the scans resolve and consume the first row). -/
theorem scan_shadowed_ticket_never_used_witness :
    ((dbDup.tickets.map Ticket.id).Nodup
      ∧ 0 < 1 ∧ dbDup.tickets[0]? = some tiDup ∧ dbDup.tickets[1]? = some tjDup
      ∧ tiDup.booking_id = tjDup.booking_id
      ∧ tiDup.passenger_name = tjDup.passenger_name
      ∧ tjDup.used = false)
    ∧ (runScans dbDup [(tjDup.qr_token, 1), (tjDup.qr_token, 2)]).1.tickets[1]?
        = some tjDup :=
  ⟨⟨by decide, by decide, by decide, by decide, by decide, by decide, by decide⟩,
   scan_shadowed_ticket_never_used [(tjDup.qr_token, 1), (tjDup.qr_token, 2)] dbDup 0 1
     tiDup tjDup (by decide) (by decide) (by decide) (by decide) (by decide) (by decide)
     (by decide)⟩

end Nautix
